import Mathlib

/-!
Verification of the untis-rs client library (JSON-RPC transport/session
layer and the school-search facade) against its specification.

The repository sources embedded here are `src/client.rs`, `src/schools.rs`
and `src/lib.rs`. The modules `jsonrpc`, `error`, `params`, `resources`
and `datetime` are not among the available sources; the definitions that
stand in for them are marked `Modelled from the spec:` and follow the
specification text (sections 3, 4.2, 4.3, 4.5, 7) plus the usage visible
in `client.rs` / `schools.rs`.

Async methods are embedded as pure functions: the network transport is an
explicit function argument (an oracle from request envelopes to responses),
and `&mut self` mutation is explicit state passing of the client value.
-/

set_option autoImplicit false

namespace Untis

/-- Modelled from the spec: a generic JSON value, the raw decoded response
payload (`serde_json`-style). The core treats result shapes opaquely;
callers supply a decoder from `Json` to their requested shape. -/
inductive Json where
  | null : Json
  | bool (b : Bool) : Json
  | num (n : Int) : Json
  | str (s : String) : Json
  | arr (xs : List Json) : Json
  | obj (fields : List (String × Json)) : Json

/-- Modelled from the spec (`resources.rs` missing): the person-type
classification carried by a `Session` and used to address timetable
elements (`ElementType` in the source). -/
inductive ElementType where
  | class_ : ElementType
  | teacher : ElementType
  | subject : ElementType
  | room : ElementType
  | student : ElementType
deriving DecidableEq, Repr

/-- Modelled from the spec (`resources.rs` missing): the `Session` data —
"identity/context returned by authentication: person identifier,
person-type classification, and whatever token/cookie the server uses".
The fields `person_id` and `person_type` are the ones `client.rs` reads. -/
structure Session where
  session_id : String
  person_id : Nat
  person_type : ElementType
deriving DecidableEq, Repr

/-- Modelled from the spec (`error.rs` missing): the structured error object
of a response envelope, `error: \x7bcode: integer, message: string\x7d`. -/
structure RpcError where
  code : Int
  message : String
deriving DecidableEq, Repr

/-- Modelled from the spec (`error.rs` missing): the error taxonomy of
section 7 — TransportError, ProtocolError (id mismatch / malformed
response), ServerError (`Error::Rpc` in the source, carrying the raw
code/message), DecodeError, and the facade-level NotFound. The variants
`Rpc` and `NotFound` are the ones named in `schools.rs`. -/
inductive Error where
  | Transport (msg : String) : Error
  | Protocol : Error
  | Rpc (err : RpcError) : Error
  | Decode : Error
  | NotFound : Error
deriving DecidableEq, Repr

/-- Modelled from the spec (`jsonrpc.rs` missing): the table of known
numeric server error codes (`jsonrpc::ErrorCode` in the source; only
`TooManyResults` is named in the available sources). Spec section 4.5
requires at minimum query-too-broad, not-authenticated and
not-authorized-for-operation. -/
inductive ErrorCode where
  | TooManyResults : ErrorCode
  | NotAuthenticated : ErrorCode
  | NoRightForMethod : ErrorCode
deriving DecidableEq, Repr

/-- Modelled from the spec: the numeric value of each known code
(`ErrorCode::as_isize` in the source). The concrete numbers are not in the
available sources; the proofs depend only on the codes being fixed
constants, with `TooManyResults` the registered query-too-broad code. -/
def ErrorCode.as_isize : ErrorCode → Int
  | .TooManyResults => -6003
  | .NotAuthenticated => -8520
  | .NoRightForMethod => -8509

/-- The list of numeric codes appearing in the known-code table. -/
def knownCodes : List Int :=
  [ErrorCode.TooManyResults.as_isize, ErrorCode.NotAuthenticated.as_isize,
    ErrorCode.NoRightForMethod.as_isize]

/-- Modelled from the spec (`jsonrpc.rs` missing): the request envelope
`\x7bid, method, params\x7d`, created per call. -/
structure RequestEnvelope (P : Type) where
  id : Nat
  method : String
  params : P

/-- Modelled from the spec (`jsonrpc.rs` missing): the body of a response
envelope — exactly one of `result` / `error` is present. -/
inductive ResponseBody where
  | result (raw : Json) : ResponseBody
  | error (err : RpcError) : ResponseBody

/-- Modelled from the spec (`jsonrpc.rs` missing): the response envelope
`\x7bid, result?, error?\x7d`. -/
structure ResponseEnvelope where
  id : Nat
  body : ResponseBody

/-- Modelled from the spec: the transport — one HTTPS POST returning either
the parsed response envelope or a network-level failure. Embedded as an
explicit oracle argument to every operation. -/
def Transport (P : Type) : Type :=
  RequestEnvelope P → Except String ResponseEnvelope

/-- Modelled from the spec (`jsonrpc.rs` missing): the `jsonrpc::Client` —
owns the target URL and the per-client monotonically increasing
correlation-id counter. -/
structure RpcClient where
  url : String
  nextId : Nat
deriving DecidableEq, Repr

/-- Modelled from the spec (`jsonrpc.rs` missing): `jsonrpc::Client::new`. -/
def RpcClient.new (url : String) : RpcClient :=
  { url := url, nextId := 0 }

/-- Modelled from the spec (`jsonrpc.rs` missing): the core generic
operation `request(method, params) -> T` of sections 4.2/4.3. It allocates
the next correlation id, sends the envelope through the transport, then:
a transport failure is a `Transport` error; a response id different from
the request id is a `Protocol` error; a structured `error` body maps to
`Rpc` preserving the raw code and message; a `result` body is decoded by
the caller-requested shape's decoder, a mismatch being a `Decode` error.
Returns the outcome together with the updated client (advanced counter). -/
def RpcClient.request {P T : Type} (c : RpcClient) (method : String)
    (params : P) (transport : Transport P) (decode : Json → Option T) :
    Except Error T × RpcClient :=
  let reqId := c.nextId
  let c' : RpcClient := { c with nextId := reqId + 1 }
  match transport { id := reqId, method := method, params := params } with
  | .error msg => (.error (.Transport msg), c')
  | .ok resp =>
    if resp.id = reqId then
      match resp.body with
      | .error e => (.error (.Rpc e), c')
      | .result raw =>
        match decode raw with
        | some t => (.ok t, c')
        | none => (.error .Decode, c')
    else (.error .Protocol, c')

/-- Modelled from the spec (`resources.rs` missing): the `School` resource;
the fields embedded are the ones the available sources read
(`School.server`, `School.login_name` in `client.rs`, `schoolid` in
`params.rs` usage). -/
structure School where
  server : String
  login_name : String
  id : Nat
deriving DecidableEq, Repr

/-- Modelled from the spec (`resources.rs` missing): `SchoolSearchResult`,
the result shape of the `searchSchool` method; `catch_too_many` reads its
`schools` field. -/
structure SchoolSearchResult where
  schools : List School
deriving DecidableEq, Repr

/-- Modelled from the spec (`params.rs` missing): the tagged parameter
variants for `searchSchool`, as constructed in `schools.rs`
(`FindSchoolParams::Search / ById / ByName`). -/
inductive FindSchoolParams where
  | Search (search : String) : FindSchoolParams
  | ById (schoolid : Nat) : FindSchoolParams
  | ByName (schoolname : String) : FindSchoolParams
deriving DecidableEq, Repr

namespace schools

/-- `schools.rs` `get_client`: a fresh rpc client on the fixed discovery
endpoint. -/
def get_client : RpcClient :=
  RpcClient.new "https://mobile.webuntis.com/ms/schoolquery2"

/-- `schools.rs` `catch_too_many`: a server error with the registered
`TooManyResults` code becomes an empty school list; every other outcome is
passed through (success projected to its `schools` field). -/
def catch_too_many (result : Except Error SchoolSearchResult) :
    Except Error (List School) :=
  match result with
  | .ok v => .ok v.schools
  | .error (.Rpc err) =>
    if err.code = ErrorCode.TooManyResults.as_isize then
      .ok []
    else
      .error (.Rpc err)
  | .error err => .error err

/-- `schools.rs` `get_first`: `swap_remove(0)` on a non-empty list returns
its first element; an empty list is `Error::NotFound`. -/
def get_first (list : List School) : Except Error School :=
  match list with
  | [] => .error .NotFound
  | s :: _ => .ok s

/-- The rpc call made by `schools.rs` `search`: `searchSchool` with a
`Search` parameter on the discovery client (outcome component only; the
local client is dropped). -/
def search_rpc (query : String) (transport : Transport (List FindSchoolParams))
    (decode : Json → Option SchoolSearchResult) :
    Except Error SchoolSearchResult :=
  (get_client.request "searchSchool" [FindSchoolParams.Search query]
    transport decode).1

/-- `schools.rs` `search`. -/
def search (query : String) (transport : Transport (List FindSchoolParams))
    (decode : Json → Option SchoolSearchResult) :
    Except Error (List School) :=
  catch_too_many (search_rpc query transport decode)

/-- The rpc call made by `schools.rs` `get_by_id`. -/
def get_by_id_rpc (id : Nat) (transport : Transport (List FindSchoolParams))
    (decode : Json → Option SchoolSearchResult) :
    Except Error SchoolSearchResult :=
  (get_client.request "searchSchool" [FindSchoolParams.ById id]
    transport decode).1

/-- `schools.rs` `get_by_id`: `get_first(catch_too_many(result)?)`. -/
def get_by_id (id : Nat) (transport : Transport (List FindSchoolParams))
    (decode : Json → Option SchoolSearchResult) : Except Error School :=
  match catch_too_many (get_by_id_rpc id transport decode) with
  | .error e => .error e
  | .ok list => get_first list

/-- The rpc call made by `schools.rs` `get_by_name`. -/
def get_by_name_rpc (name : String)
    (transport : Transport (List FindSchoolParams))
    (decode : Json → Option SchoolSearchResult) :
    Except Error SchoolSearchResult :=
  (get_client.request "searchSchool" [FindSchoolParams.ByName name]
    transport decode).1

/-- `schools.rs` `get_by_name`: `get_first(catch_too_many(result)?)`. -/
def get_by_name (name : String)
    (transport : Transport (List FindSchoolParams))
    (decode : Json → Option SchoolSearchResult) : Except Error School :=
  match catch_too_many (get_by_name_rpc name transport decode) with
  | .error e => .error e
  | .ok list => get_first list

end schools

/-- Modelled from the spec (`datetime.rs` missing): the `Date` type, opaque
to the session layer (date/week arithmetic is excluded from the core); a
day index suffices for the embedded operations. -/
structure Date where
  day : Nat
deriving DecidableEq, Repr

/-- Modelled from the spec (`datetime.rs` missing): `relative_week_begin`,
the first day of the week a date is in. -/
def Date.relative_week_begin (d : Date) : Date :=
  ⟨d.day - d.day % 7⟩

/-- Modelled from the spec (`datetime.rs` missing): `relative_week_end`,
the last day of the week a date is in. -/
def Date.relative_week_end (d : Date) : Date :=
  ⟨d.day - d.day % 7 + 6⟩

/-- Modelled from the spec (`params.rs` missing): `AuthenticateParams`, as
constructed in `Client::login` with fields `client`, `user`, `password`. -/
structure AuthenticateParams where
  client : String
  user : String
  password : String
deriving DecidableEq, Repr

/-- Modelled from the spec (`params.rs` missing): `TimetableParamsElem`
with fields `id`, `ty`, as constructed in `Client::timetable_between`. -/
structure TimetableParamsElem where
  id : Nat
  ty : ElementType
deriving DecidableEq, Repr

/-- Modelled from the spec (`params.rs` missing): `TimetableParamsOpts`,
with exactly the fields `Client::timetable_between` fills in. -/
structure TimetableParamsOpts where
  element : TimetableParamsElem
  start_date : Date
  end_date : Date
  show_booking : Bool
  show_info : Bool
  show_subst_text : Bool
  show_ls_text : Bool
  show_ls_number : Bool
  show_student_group : Bool
  class_fields : List String
  room_fields : List String
  subject_fields : List String
  teacher_fields : List String
deriving DecidableEq, Repr

/-- Modelled from the spec (`params.rs` missing): `TimetableParams`. -/
structure TimetableParams where
  options : TimetableParamsOpts
deriving DecidableEq, Repr

/-- `client.rs` `make_untis_url`:
`format!` of `https://`, the server, `/WebUntis/jsonrpc.do?school=` and
the school, concatenated in that order. -/
def make_untis_url (server school : String) : String :=
  "https://" ++ server ++ "/WebUntis/jsonrpc.do?school=" ++ school

/-- `client.rs` `Client`: the rpc client plus the session populated at
login. -/
structure Client where
  rpc_client : RpcClient
  session : Session
deriving DecidableEq, Repr

namespace Client

/-- Shared shape of every method body `self.rpc_client.request(...)`: run
the core request on the owned rpc client, thread the mutated rpc client
back into the handle, leave the session field untouched (no method of
`client.rs` writes `self.session`). -/
def rpcRequest {P T : Type} (c : Client) (method : String) (params : P)
    (transport : Transport P) (decode : Json → Option T) :
    Except Error T × Client :=
  let r := c.rpc_client.request method params transport decode
  (r.1, { c with rpc_client := r.2 })

/-- `client.rs` `Client::login`: build `AuthenticateParams` with client
string `untis-rs`, a fresh rpc client on `make_untis_url(server, school)`,
issue `authenticate`, and on success own the session together with the
(mutated) rpc client. -/
def login (server school username password : String)
    (transport : Transport AuthenticateParams)
    (decode : Json → Option Session) : Except Error Client :=
  let params : AuthenticateParams :=
    { client := "untis-rs", user := username, password := password }
  let rpc_client := RpcClient.new (make_untis_url server school)
  match rpc_client.request "authenticate" params transport decode with
  | (.error e, _) => .error e
  | (.ok session, rpc') => .ok { rpc_client := rpc', session := session }

/-- `client.rs` `Client::last_update_time` (`getLatestImportTime`); the
timestamp is kept as raw milliseconds, the `chrono` conversion being
outside the embedded core. -/
def last_update_time (c : Client) (transport : Transport Unit)
    (decode : Json → Option Int) : Except Error Int × Client :=
  c.rpcRequest "getLatestImportTime" () transport decode

/-- `client.rs` `Client::status_data` (`getStatusData`); the result shape
is opaque to the core. -/
def status_data {T : Type} (c : Client) (transport : Transport Unit)
    (decode : Json → Option T) : Except Error T × Client :=
  c.rpcRequest "getStatusData" () transport decode

/-- `client.rs` `Client::current_schoolyear` (`getCurrentSchoolyear`). -/
def current_schoolyear {T : Type} (c : Client) (transport : Transport Unit)
    (decode : Json → Option T) : Except Error T × Client :=
  c.rpcRequest "getCurrentSchoolyear" () transport decode

/-- `client.rs` `Client::schoolyears` (`getSchoolyears`). -/
def schoolyears {T : Type} (c : Client) (transport : Transport Unit)
    (decode : Json → Option T) : Except Error T × Client :=
  c.rpcRequest "getSchoolyears" () transport decode

/-- `client.rs` `Client::holidays` (`getHolidays`). -/
def holidays {T : Type} (c : Client) (transport : Transport Unit)
    (decode : Json → Option T) : Except Error T × Client :=
  c.rpcRequest "getHolidays" () transport decode

/-- `client.rs` `Client::rooms` (`getRooms`). -/
def rooms {T : Type} (c : Client) (transport : Transport Unit)
    (decode : Json → Option T) : Except Error T × Client :=
  c.rpcRequest "getRooms" () transport decode

/-- `client.rs` `Client::classes` (`getKlassen`). -/
def classes {T : Type} (c : Client) (transport : Transport Unit)
    (decode : Json → Option T) : Except Error T × Client :=
  c.rpcRequest "getKlassen" () transport decode

/-- `client.rs` `Client::subjects` (`getSubjects`). -/
def subjects {T : Type} (c : Client) (transport : Transport Unit)
    (decode : Json → Option T) : Except Error T × Client :=
  c.rpcRequest "getSubjects" () transport decode

/-- `client.rs` `Client::teachers` (`getTeachers`). -/
def teachers {T : Type} (c : Client) (transport : Transport Unit)
    (decode : Json → Option T) : Except Error T × Client :=
  c.rpcRequest "getTeachers" () transport decode

/-- `client.rs` `Client::students` (`getStudents`). -/
def students {T : Type} (c : Client) (transport : Transport Unit)
    (decode : Json → Option T) : Except Error T × Client :=
  c.rpcRequest "getStudents" () transport decode

/-- `client.rs` `Client::departments` (`getDepartments`). -/
def departments {T : Type} (c : Client) (transport : Transport Unit)
    (decode : Json → Option T) : Except Error T × Client :=
  c.rpcRequest "getDepartments" () transport decode

/-- `client.rs` `Client::timetable_between` (`getTimetable`): all the
option fields are the fixed values of the source; the timetable result
shape (`Vec<Lesson>`) is opaque to the core. -/
def timetable_between {T : Type} (c : Client) (id : Nat) (ty : ElementType)
    (start_date end_date : Date) (transport : Transport TimetableParams)
    (decode : Json → Option T) : Except Error T × Client :=
  let params : TimetableParams :=
    { options :=
      { element := { id := id, ty := ty }
        start_date := start_date
        end_date := end_date
        show_booking := true
        show_info := true
        show_subst_text := true
        show_ls_text := true
        show_ls_number := true
        show_student_group := true
        class_fields := ["id", "name"]
        room_fields := ["id", "name"]
        subject_fields := ["id", "name"]
        teacher_fields := ["id", "name"] } }
  c.rpcRequest "getTimetable" params transport decode

/-- `client.rs` `Client::own_timetable_between`: delegates to
`timetable_between` with the session's `person_id` and `person_type`. -/
def own_timetable_between {T : Type} (c : Client)
    (start_date end_date : Date) (transport : Transport TimetableParams)
    (decode : Json → Option T) : Except Error T × Client :=
  c.timetable_between c.session.person_id c.session.person_type
    start_date end_date transport decode

/-- `client.rs` `Client::timetable_until`: `Date::today()` reads the
clock, embedded as the explicit `today` argument. -/
def timetable_until {T : Type} (c : Client) (today : Date) (id : Nat)
    (ty : ElementType) (end_date : Date)
    (transport : Transport TimetableParams) (decode : Json → Option T) :
    Except Error T × Client :=
  c.timetable_between id ty today end_date transport decode

/-- `client.rs` `Client::timetable_for_week`. -/
def timetable_for_week {T : Type} (c : Client) (id : Nat)
    (ty : ElementType) (date : Date)
    (transport : Transport TimetableParams) (decode : Json → Option T) :
    Except Error T × Client :=
  c.timetable_between id ty date.relative_week_begin date.relative_week_end
    transport decode

/-- `client.rs` `Client::timetable_current_week`, with `Date::today()` as
the explicit `today` argument. -/
def timetable_current_week {T : Type} (c : Client) (today : Date)
    (id : Nat) (ty : ElementType) (transport : Transport TimetableParams)
    (decode : Json → Option T) : Except Error T × Client :=
  c.timetable_for_week id ty today transport decode

/-- `client.rs` `Client::own_timetable_until`, with `Date::today()` as the
explicit `today` argument. -/
def own_timetable_until {T : Type} (c : Client) (today : Date)
    (end_date : Date) (transport : Transport TimetableParams)
    (decode : Json → Option T) : Except Error T × Client :=
  c.own_timetable_between today end_date transport decode

/-- `client.rs` `Client::own_timetable_for_week`. -/
def own_timetable_for_week {T : Type} (c : Client) (date : Date)
    (transport : Transport TimetableParams) (decode : Json → Option T) :
    Except Error T × Client :=
  c.own_timetable_between date.relative_week_begin date.relative_week_end
    transport decode

/-- `client.rs` `Client::own_timetable_current_week`, with `Date::today()`
as the explicit `today` argument. -/
def own_timetable_current_week {T : Type} (c : Client) (today : Date)
    (transport : Transport TimetableParams) (decode : Json → Option T) :
    Except Error T × Client :=
  c.own_timetable_for_week today transport decode

/-- `client.rs` `Client::logout`: `logout(mut self)` takes the client by
value and returns only `Result<(), Error>` — no client comes back, so the
handle is consumed whether the call succeeds or fails. -/
def logout (c : Client) (transport : Transport Unit)
    (decode : Json → Option Unit) : Except Error Unit :=
  (c.rpc_client.request "logout" () transport decode).1

end Client

/-- `client.rs` `School::client_login`: delegates to `Client::login` with
the school's `server` and `login_name`. -/
def School.client_login (sch : School) (username password : String)
    (transport : Transport AuthenticateParams)
    (decode : Json → Option Session) : Except Error Client :=
  Client.login sch.server sch.login_name username password transport decode

/-- The constructors of `Client` values exposed by the library: per
`client.rs`, `Client::login` and `School::client_login` (which delegates
to it) are the only public ways to obtain a `Client`. -/
inductive ClientConstructed : Client → Prop where
  | login (server school username password : String)
      (transport : Transport AuthenticateParams)
      (decode : Json → Option Session) (c : Client)
      (h : Client.login server school username password transport decode
        = .ok c) : ClientConstructed c
  | client_login (sch : School) (username password : String)
      (transport : Transport AuthenticateParams)
      (decode : Json → Option Session) (c : Client)
      (h : sch.client_login username password transport decode = .ok c) :
      ClientConstructed c

/-- The session-lifecycle states of spec section 4.4. -/
inductive HandleState where
  | unauthenticated : HandleState
  | authenticated (s : Session) : HandleState
  | loggedOut : HandleState
deriving DecidableEq, Repr

/-- The calls of the `client.rs` API surface, abstracted to what they do
to the handle state: a login attempt (with its outcome), any
informational `&mut self` method, and a logout attempt (with its
outcome). -/
inductive ApiCall where
  | loginAttempt (ok : Bool) (s : Session) : ApiCall
  | infoCall : ApiCall
  | logoutAttempt (ok : Bool) : ApiCall
deriving DecidableEq, Repr

/-- The handle-state transition function read off the receiver types of
`client.rs`: `login` is the only producer of a handle (success enters
`authenticated`, failure leaves none); every informational method takes
`&mut self`, so it needs and returns an authenticated handle; `logout`
takes `self` by value, so the handle is gone afterwards whatever the
outcome. `none` means the call is not representable in that state. -/
def HandleState.step : HandleState → ApiCall → Option HandleState
  | .unauthenticated, .loginAttempt true s => some (.authenticated s)
  | .unauthenticated, .loginAttempt false _ => some .unauthenticated
  | .authenticated s, .infoCall => some (.authenticated s)
  | .authenticated _, .logoutAttempt _ => some .loggedOut
  | _, _ => none

/-- Whether an `Error` is a server error carrying the registered
query-too-broad code — the condition tested by `catch_too_many`. -/
def isTooManyErr : Error → Bool
  | .Rpc err => decide (err.code = ErrorCode.TooManyResults.as_isize)
  | _ => false

/-- A concrete session value used to exercise the theorems. -/
def demoSession : Session :=
  { session_id := "sid", person_id := 7, person_type := ElementType.student }

/-- A concrete school value used to exercise the theorems. -/
def demoSchool : School :=
  { server := "srv.webuntis.com", login_name := "demo", id := 42 }

/-- A transport oracle that answers every request with a well-correlated
empty result payload. -/
def demoAuthTransport : Transport AuthenticateParams :=
  fun req => .ok { id := req.id, body := .result .null }

/-- A decoder that always yields `demoSession`. -/
def demoSessionDecode : Json → Option Session :=
  fun _ => some demoSession

/-- The client produced by a successful demo login on server `srv`,
school `sch`. -/
def demoClient : Client :=
  { rpc_client := { url := make_untis_url "srv" "sch", nextId := 1 }
    session := demoSession }

/-- A well-correlated transport oracle answering every request with a
`null` result payload. -/
def okNullTransport {P : Type} : Transport P :=
  fun req => .ok { id := req.id, body := .result Json.null }

/-- The server error object carrying the registered query-too-broad
code. -/
def tooManyErrObj : RpcError :=
  { code := ErrorCode.TooManyResults.as_isize, message := "too many results" }

/-- A well-correlated transport oracle answering every request with the
`TooManyResults` server error. -/
def tooManyTransport {P : Type} : Transport P :=
  fun req => .ok { id := req.id, body := .error tooManyErrObj }

/-- A decoder yielding a single-school search result. -/
def decodeOneSchool : Json → Option SchoolSearchResult :=
  fun _ => some { schools := [demoSchool] }

/-- A decoder yielding an empty search result. -/
def decodeEmptySchools : Json → Option SchoolSearchResult :=
  fun _ => some { schools := [] }

/-- The counter is advanced and the url kept by every core request,
whatever the outcome. -/
theorem request_state_update {P T : Type} (c : RpcClient) (method : String)
    (params : P) (transport : Transport P) (decode : Json → Option T) :
    (c.request method params transport decode).2
      = { c with nextId := c.nextId + 1 } := by
  simp only [RpcClient.request]
  repeat' split
  all_goals rfl

/-- C1: for every request issued through the core's generic request
operation, if the response envelope's id does not equal the id of the
originating request, the call fails with a `Protocol` error and the
decoded payload is never returned to the caller. -/
theorem request_id_mismatch_yields_protocol_error {P T : Type}
    (c : RpcClient) (method : String) (params : P) (transport : Transport P)
    (decode : Json → Option T) (resp : ResponseEnvelope)
    (htrans : transport { id := c.nextId, method := method, params := params }
      = .ok resp)
    (hid : resp.id ≠ c.nextId) :
    (c.request method params transport decode).1 = .error .Protocol ∧
      ∀ t : T, (c.request method params transport decode).1 ≠ .ok t := by
  have key : (c.request method params transport decode).1
      = .error .Protocol := by
    simp only [RpcClient.request, htrans]
    simp [hid]
  exact ⟨key, fun t hcontr => by
    rw [key] at hcontr
    exact Except.noConfusion hcontr⟩

/-- A desynchronized response (id 5 answering request id 0) makes the call
fail with a `Protocol` error. -/
theorem request_id_mismatch_witness :
    ((RpcClient.new "https://example.org").request "getRooms" ()
      (fun req => .ok { id := req.id + 5, body := .result .null })
      (fun _ => some (0 : Int))).1 = .error .Protocol :=
  (request_id_mismatch_yields_protocol_error (RpcClient.new "https://example.org")
    "getRooms" () (fun req => .ok { id := req.id + 5, body := .result .null })
    (fun _ => some (0 : Int)) { id := 5, body := .result .null }
    rfl (by decide)).1

/-- C2: when the school-search rpc call fails with a server error carrying
the registered query-too-broad (`TooManyResults`) code, `schools::search`
returns `Ok` with an empty list; any other error is propagated
unchanged. -/
theorem search_converts_too_many_results (query : String)
    (transport : Transport (List FindSchoolParams))
    (decode : Json → Option SchoolSearchResult) (e : Error)
    (h : schools.search_rpc query transport decode = .error e) :
    schools.search query transport decode =
      if isTooManyErr e then .ok [] else .error e := by
  unfold schools.search schools.catch_too_many
  rw [h]
  cases e <;> simp [isTooManyErr]

/-- A canned `TooManyResults` server error makes `schools::search` return
the empty list. -/
theorem search_converts_too_many_results_witness :
    schools.search "gym" tooManyTransport decodeEmptySchools =
      (if isTooManyErr (.Rpc tooManyErrObj) then .ok []
        else .error (.Rpc tooManyErrObj)) :=
  search_converts_too_many_results "gym" tooManyTransport decodeEmptySchools
    (.Rpc tooManyErrObj) rfl

/-- C3: an identity lookup whose successful response holds exactly one
item returns that item, and one whose response holds zero items returns
`NotFound`, for both `get_by_id` and `get_by_name`. -/
theorem lookup_singleton_or_not_found (id : Nat) (name : String)
    (tA tB tC tD : Transport (List FindSchoolParams))
    (dA dB dC dD : Json → Option SchoolSearchResult) (s s' : School)
    (hA : schools.get_by_id_rpc id tA dA = .ok { schools := [s] })
    (hB : schools.get_by_id_rpc id tB dB = .ok { schools := [] })
    (hC : schools.get_by_name_rpc name tC dC = .ok { schools := [s'] })
    (hD : schools.get_by_name_rpc name tD dD = .ok { schools := [] }) :
    schools.get_by_id id tA dA = .ok s ∧
    schools.get_by_id id tB dB = .error .NotFound ∧
    schools.get_by_name name tC dC = .ok s' ∧
    schools.get_by_name name tD dD = .error .NotFound := by
  refine ⟨?_, ?_, ?_, ?_⟩ <;>
    simp [schools.get_by_id, schools.get_by_name, schools.catch_too_many,
      schools.get_first, hA, hB, hC, hD]

/-- Concrete canned lookups: a singleton response returns its school, an
empty response returns `NotFound`. -/
theorem lookup_singleton_or_not_found_witness :
    schools.get_by_id 42 okNullTransport decodeOneSchool = .ok demoSchool ∧
    schools.get_by_id 42 okNullTransport decodeEmptySchools
      = .error .NotFound ∧
    schools.get_by_name "demo" okNullTransport decodeOneSchool
      = .ok demoSchool ∧
    schools.get_by_name "demo" okNullTransport decodeEmptySchools
      = .error .NotFound :=
  lookup_singleton_or_not_found 42 "demo" okNullTransport okNullTransport
    okNullTransport okNullTransport decodeOneSchool decodeEmptySchools
    decodeOneSchool decodeEmptySchools demoSchool demoSchool rfl rfl rfl rfl

/-- C4: for identity lookups, a `TooManyResults` server error and a
successful empty response produce the same outcome, `NotFound`, for both
`get_by_id` and `get_by_name`. -/
theorem too_many_equals_empty_for_lookup (id : Nat) (name : String)
    (t1 t2 t3 t4 : Transport (List FindSchoolParams))
    (d1 d2 d3 d4 : Json → Option SchoolSearchResult) (err : RpcError)
    (hcode : err.code = ErrorCode.TooManyResults.as_isize)
    (h1 : schools.get_by_id_rpc id t1 d1 = .error (.Rpc err))
    (h2 : schools.get_by_id_rpc id t2 d2 = .ok { schools := [] })
    (h3 : schools.get_by_name_rpc name t3 d3 = .error (.Rpc err))
    (h4 : schools.get_by_name_rpc name t4 d4 = .ok { schools := [] }) :
    schools.get_by_id id t1 d1 = schools.get_by_id id t2 d2 ∧
    schools.get_by_id id t1 d1 = .error .NotFound ∧
    schools.get_by_name name t3 d3 = schools.get_by_name name t4 d4 ∧
    schools.get_by_name name t3 d3 = .error .NotFound := by
  refine ⟨?_, ?_, ?_, ?_⟩ <;>
    simp [schools.get_by_id, schools.get_by_name, schools.catch_too_many,
      schools.get_first, h1, h2, h3, h4, hcode]

/-- Concretely, the `TooManyResults` error and the empty response both end
in `NotFound` on both lookup facades. -/
theorem too_many_equals_empty_for_lookup_witness :
    (schools.get_by_id 42 tooManyTransport decodeEmptySchools =
      schools.get_by_id 42 okNullTransport decodeEmptySchools) ∧
    schools.get_by_id 42 tooManyTransport decodeEmptySchools
      = .error .NotFound ∧
    (schools.get_by_name "demo" tooManyTransport decodeEmptySchools =
      schools.get_by_name "demo" okNullTransport decodeEmptySchools) ∧
    schools.get_by_name "demo" tooManyTransport decodeEmptySchools
      = .error .NotFound :=
  too_many_equals_empty_for_lookup 42 "demo" tooManyTransport okNullTransport
    tooManyTransport okNullTransport decodeEmptySchools decodeEmptySchools
    decodeEmptySchools decodeEmptySchools tooManyErrObj
    rfl rfl rfl rfl rfl

/-- C5: every constructible `Client` carries a session populated by a
successful `authenticate` call — `Client::login` and the delegating
`School::client_login` are the only constructors, and each stores exactly
the session decoded from a successful `authenticate` request (together
with the rpc client that issued it). -/
theorem client_session_from_authenticate (c : Client)
    (h : ClientConstructed c) :
    ∃ (url username password : String)
      (transport : Transport AuthenticateParams)
      (decode : Json → Option Session),
      (RpcClient.new url).request "authenticate"
        { client := "untis-rs", user := username, password := password }
        transport decode = (.ok c.session, c.rpc_client) := by
  have key : ∀ (server school username password : String)
      (transport : Transport AuthenticateParams)
      (decode : Json → Option Session) (c : Client),
      Client.login server school username password transport decode = .ok c →
      (RpcClient.new (make_untis_url server school)).request "authenticate"
        { client := "untis-rs", user := username, password := password }
        transport decode = (.ok c.session, c.rpc_client) := by
    intro server school username password transport decode c hlog
    simp only [Client.login] at hlog
    cases hreq : (RpcClient.new (make_untis_url server school)).request
        "authenticate"
        { client := "untis-rs", user := username, password := password }
        transport decode with
    | mk res rpc' =>
      rw [hreq] at hlog
      cases res with
      | error e => simp at hlog
      | ok s =>
        simp only at hlog
        injection hlog with h1
        subst h1
        rfl
  cases h with
  | login server school username password transport decode c hl =>
    exact ⟨make_untis_url server school, username, password, transport,
      decode, key server school username password transport decode c hl⟩
  | client_login sch username password transport decode c hl =>
    exact ⟨make_untis_url sch.server sch.login_name, username, password,
      transport, decode,
      key sch.server sch.login_name username password transport decode c hl⟩

/-- `demoClient`, obtained by a successful demo login, stores exactly the
session and rpc client produced by its `authenticate` call. -/
theorem client_session_from_authenticate_witness :
    ∃ (url username password : String)
      (transport : Transport AuthenticateParams)
      (decode : Json → Option Session),
      (RpcClient.new url).request "authenticate"
        { client := "untis-rs", user := username, password := password }
        transport decode = (.ok demoClient.session, demoClient.rpc_client) :=
  client_session_from_authenticate demoClient
    (ClientConstructed.login "srv" "sch" "user" "pw" demoAuthTransport
      demoSessionDecode demoClient rfl)

/-- C6: a server error whose numeric code is not in the known-code table
surfaces as `Error::Rpc` carrying exactly the original code and message,
and the facade's `catch_too_many` passes it through unchanged. -/
theorem unknown_error_code_preserved {P T : Type} (c : RpcClient)
    (method : String) (params : P) (transport : Transport P)
    (decode : Json → Option T) (code : Int) (msg : String)
    (htrans : transport { id := c.nextId, method := method, params := params }
      = .ok { id := c.nextId, body := .error { code := code, message := msg } })
    (hunknown : code ∉ knownCodes) :
    (c.request method params transport decode).1
      = .error (.Rpc { code := code, message := msg }) ∧
    schools.catch_too_many (.error (.Rpc { code := code, message := msg }))
      = .error (.Rpc { code := code, message := msg }) := by
  constructor
  · simp only [RpcClient.request, htrans]
    simp
  · have hne : code ≠ ErrorCode.TooManyResults.as_isize := by
      intro hc
      exact hunknown (by simp [knownCodes, hc])
    simp [schools.catch_too_many, hne]

/-- A transport oracle answering with the unregistered code `9999` and
message `custom failure`. -/
def customErrTransport {P : Type} : Transport P :=
  fun req =>
    .ok { id := req.id, body := .error { code := 9999, message := "custom failure" } }

/-- The unregistered code `9999` / message `custom failure` is surfaced
verbatim. -/
theorem unknown_error_code_preserved_witness :
    ((RpcClient.new "https://example.org").request "getRooms" ()
        customErrTransport (fun _ => some (0 : Int))).1
      = .error (.Rpc { code := 9999, message := "custom failure" }) ∧
    schools.catch_too_many
        (.error (.Rpc { code := 9999, message := "custom failure" }))
      = .error (.Rpc { code := 9999, message := "custom failure" }) :=
  unknown_error_code_preserved (RpcClient.new "https://example.org")
    "getRooms" () customErrTransport (fun _ => some (0 : Int)) 9999
    "custom failure" rfl (by decide)

/-- C7: every informational operation of `client.rs` leaves the client's
session field unchanged, whatever the transport outcome — the handle
returned by each call carries the session populated at login. -/
theorem informational_ops_preserve_session {T : Type} (c : Client)
    (tU : Transport Unit) (tT : Transport TimetableParams)
    (dI : Json → Option Int) (d : Json → Option T) (today sd ed dt : Date)
    (id : Nat) (ty : ElementType) :
    (c.last_update_time tU dI).2.session = c.session ∧
    (c.status_data tU d).2.session = c.session ∧
    (c.current_schoolyear tU d).2.session = c.session ∧
    (c.schoolyears tU d).2.session = c.session ∧
    (c.holidays tU d).2.session = c.session ∧
    (c.rooms tU d).2.session = c.session ∧
    (c.classes tU d).2.session = c.session ∧
    (c.subjects tU d).2.session = c.session ∧
    (c.teachers tU d).2.session = c.session ∧
    (c.students tU d).2.session = c.session ∧
    (c.departments tU d).2.session = c.session ∧
    (c.timetable_between id ty sd ed tT d).2.session = c.session ∧
    (c.timetable_until today id ty ed tT d).2.session = c.session ∧
    (c.timetable_for_week id ty dt tT d).2.session = c.session ∧
    (c.timetable_current_week today id ty tT d).2.session = c.session ∧
    (c.own_timetable_between sd ed tT d).2.session = c.session ∧
    (c.own_timetable_until today ed tT d).2.session = c.session ∧
    (c.own_timetable_for_week dt tT d).2.session = c.session ∧
    (c.own_timetable_current_week today tT d).2.session = c.session :=
  ⟨rfl, rfl, rfl, rfl, rfl, rfl, rfl, rfl, rfl, rfl, rfl, rfl, rfl, rfl,
    rfl, rfl, rfl, rfl, rfl⟩

/-- C8: `logout` takes the handle by value, so from the authenticated
state any logout attempt (successful or not) ends in `loggedOut`, and no
API call is representable on a logged-out handle — the state is
terminal. -/
theorem logged_out_is_terminal (s : Session) (ok : Bool) :
    (HandleState.authenticated s).step (.logoutAttempt ok) = some .loggedOut ∧
    ∀ call : ApiCall, HandleState.loggedOut.step call = none := by
  refine ⟨rfl, ?_⟩
  intro call
  cases call <;> rfl

/-- C9: a successful login's client targets exactly
`https://` ++ server ++ `/WebUntis/jsonrpc.do?school=` ++ school, and the
school-search facade always targets the fixed discovery URL. -/
theorem untis_urls (server school username password : String)
    (transport : Transport AuthenticateParams)
    (decode : Json → Option Session) (c : Client)
    (h : Client.login server school username password transport decode
      = .ok c) :
    c.rpc_client.url
      = "https://" ++ server ++ "/WebUntis/jsonrpc.do?school=" ++ school ∧
    schools.get_client.url = "https://mobile.webuntis.com/ms/schoolquery2" := by
  refine ⟨?_, rfl⟩
  simp only [Client.login] at h
  cases hreq : (RpcClient.new (make_untis_url server school)).request
      "authenticate"
      { client := "untis-rs", user := username, password := password }
      transport decode with
  | mk res rpc' =>
    rw [hreq] at h
    cases res with
    | error e => simp at h
    | ok s =>
      simp only at h
      injection h with h1
      subst h1
      have hst := request_state_update
        (RpcClient.new (make_untis_url server school)) "authenticate"
        { client := "untis-rs", user := username, password := password }
        transport decode
      rw [hreq] at hst
      simp only [Prod.snd] at hst
      show rpc'.url = _
      rw [hst]
      rfl

/-- The demo login on server `srv`, school `sch` targets the expected
authenticated URL; the discovery URL is the fixed one. -/
theorem untis_urls_witness :
    demoClient.rpc_client.url
      = "https://" ++ "srv" ++ "/WebUntis/jsonrpc.do?school=" ++ "sch" ∧
    schools.get_client.url = "https://mobile.webuntis.com/ms/schoolquery2" :=
  untis_urls "srv" "sch" "user" "pw" demoAuthTransport demoSessionDecode
    demoClient rfl

/-- C10: `own_timetable_between` issues exactly the timetable request of
`timetable_between` applied to the `person_id` and `person_type` stored
in the client's session. -/
theorem own_timetable_uses_session_identity {T : Type} (c : Client)
    (sd ed : Date) (t : Transport TimetableParams) (d : Json → Option T) :
    c.own_timetable_between sd ed t d
      = c.timetable_between c.session.person_id c.session.person_type
          sd ed t d :=
  rfl

end Untis
